import Mathlib

/-!
Verification of the compliance rule engine of the `ntia-conformance-checker`
repository: the field-presence predicates of `ntia_conformance_checker/util.py`
and the checker layer built on top of them (NTIA Minimum Elements and
FSCT v3 Minimum Expected standards, and the `SbomChecker` factory).

Python values that may be `None` or a string are embedded as `Option String`;
Python truthiness on such a value (`not x`) is `pyFalsy`.  A package's
`supplier` attribute is `None`, an `SpdxNoAssertion` instance, or an
`Actor`-like value, embedded as the three-constructor type `Supplier`.
A Python function that can raise is embedded as returning `Except String`.
-/

/-- The `supplier` attribute of a package: `None` (`absent`), an
`SpdxNoAssertion` instance (`noAssertion`), or any other value such as an
`Actor` (`value`, carrying its rendering as a string, possibly empty). -/
inductive Supplier where
  | absent
  | noAssertion
  | value (s : String)
deriving DecidableEq

/-- An SPDX package (component) with the attributes the rule engine reads.
String-or-`None` attributes are `Option String`. -/
structure Package where
  name : Option String
  version : Option String
  supplier : Supplier
  spdx_id : Option String
  concluded_license : Option String
  copyright_text : Option String
deriving DecidableEq

/-- A parsed SPDX document: its ordered package list, plus the three
document-level facts the checkers consult.  The three booleans are
Modelled from the spec: `check_author`, `check_timestamp` and
`check_dependency_relationships` of `base_checker.py` are not under `src/`;
the spec describes them as document-level presence booleans, so they are
carried here as metadata of the document. -/
structure Document where
  packages : List Package
  has_author : Bool
  has_timestamp : Bool
  has_dependency_relationships : Bool
deriving DecidableEq

/-- Python truthiness test `not x` for a value that is `None` or a string:
true exactly on `None` and the empty string. -/
def pyFalsy : Option String → Bool
  | none => true
  | some s => s == ""

/-- An element of a list returned by a field predicate: either a single
value (a name or an SPDX ID, itself possibly `None`) or, under
`return_tuples=True`, a `(name, spdx_id)` pair. -/
inductive EntryV where
  | val (v : Option String)
  | pair (n i : Option String)
deriving DecidableEq

/-- The loop of `get_components_without_names`: append `package.spdx_id`
for each package whose `name` is falsy. -/
def names_loop : List Package → List (Option String)
  | [] => []
  | p :: rest =>
      if pyFalsy p.name then p.spdx_id :: names_loop rest else names_loop rest

/-- `util.get_components_without_names(doc)`: iterates `doc.packages`; on a
`None` document the attribute access `doc.packages` raises `AttributeError`. -/
def get_components_without_names (doc : Option Document) :
    Except String (List (Option String)) :=
  match doc with
  | none => Except.error "AttributeError"
  | some d => Except.ok (names_loop d.packages)

/-- The loop of `get_components_without_versions`: for each package whose
`version` is falsy, append `(package.name, package.spdx_id)` when
`return_tuples` is set, else `package.name`. -/
def versions_loop (return_tuples : Bool) : List Package → List EntryV
  | [] => []
  | p :: rest =>
      if pyFalsy p.version then
        (if return_tuples then EntryV.pair p.name p.spdx_id else EntryV.val p.name)
          :: versions_loop return_tuples rest
      else versions_loop return_tuples rest

/-- `util.get_components_without_versions(doc, return_tuples)`; a `None`
document raises `AttributeError` at `doc.packages`. -/
def get_components_without_versions (doc : Option Document) (return_tuples : Bool) :
    Except String (List EntryV) :=
  match doc with
  | none => Except.error "AttributeError"
  | some d => Except.ok (versions_loop return_tuples d.packages)

/-- The test `package.supplier is None or isinstance(package.supplier,
SpdxNoAssertion)` of `get_components_without_suppliers`. -/
def no_supplier (p : Package) : Bool :=
  match p.supplier with
  | Supplier.absent => true
  | Supplier.noAssertion => true
  | Supplier.value _ => false

/-- The loop of `get_components_without_suppliers`: for each package passing
`no_supplier`, append `(package.name, package.spdx_id)` when `return_tuples`
is set, else `package.name`. -/
def suppliers_loop (return_tuples : Bool) : List Package → List EntryV
  | [] => []
  | p :: rest =>
      if no_supplier p then
        (if return_tuples then EntryV.pair p.name p.spdx_id else EntryV.val p.name)
          :: suppliers_loop return_tuples rest
      else suppliers_loop return_tuples rest

/-- `util.get_components_without_suppliers(doc, return_tuples)`; a `None`
document raises `AttributeError` at `doc.packages`. -/
def get_components_without_suppliers (doc : Option Document) (return_tuples : Bool) :
    Except String (List EntryV) :=
  match doc with
  | none => Except.error "AttributeError"
  | some d => Except.ok (suppliers_loop return_tuples d.packages)

/-- `util.get_components_without_identifiers(doc)`: the list comprehension
`[package.name for package in doc.packages if not package.spdx_id]`; a `None`
document raises `AttributeError` at `doc.packages`. -/
def get_components_without_identifiers (doc : Option Document) :
    Except String (List (Option String)) :=
  match doc with
  | none => Except.error "AttributeError"
  | some d =>
      Except.ok ((d.packages.filter (fun p => pyFalsy p.spdx_id)).map Package.name)

deriving instance DecidableEq for Except

lemma names_loop_eq_filter_map (ps : List Package) :
    names_loop ps = (ps.filter (fun p => pyFalsy p.name)).map Package.spdx_id := by
  induction ps with
  | nil => rfl
  | cons p rest ih =>
      by_cases h : pyFalsy p.name
      · simp [names_loop, List.filter_cons, h, ih]
      · simp [names_loop, List.filter_cons, h, ih]

lemma versions_loop_eq_filter_map (b : Bool) (ps : List Package) :
    versions_loop b ps =
      (ps.filter (fun p => pyFalsy p.version)).map
        (fun p => if b then EntryV.pair p.name p.spdx_id else EntryV.val p.name) := by
  induction ps with
  | nil => rfl
  | cons p rest ih =>
      by_cases h : pyFalsy p.version
      · simp [versions_loop, List.filter_cons, h, ih]
      · simp [versions_loop, List.filter_cons, h, ih]

lemma suppliers_loop_eq_filter_map (b : Bool) (ps : List Package) :
    suppliers_loop b ps =
      (ps.filter no_supplier).map
        (fun p => if b then EntryV.pair p.name p.spdx_id else EntryV.val p.name) := by
  induction ps with
  | nil => rfl
  | cons p rest ih =>
      by_cases h : no_supplier p
      · simp [suppliers_loop, List.filter_cons, h, ih]
      · simp [suppliers_loop, List.filter_cons, h, ih]

/-- Modelled from the spec: `BaseChecker.get_components_without_names` of
`base_checker.py` is not under `src/`.  Per the spec and the tests at
`src/tests/test_base_checker.py`, the checker-level accessor returns `[]`
when the document is `None` and otherwise delegates to the `util.py`
predicate. -/
def checker_get_components_without_names (doc : Option Document) :
    List (Option String) :=
  match doc with
  | none => []
  | some d => names_loop d.packages

/-- Modelled from the spec: `BaseChecker.get_components_without_versions`
is not under `src/`; it returns `[]` on a `None` document and otherwise
delegates to the `util.py` predicate. -/
def checker_get_components_without_versions (doc : Option Document)
    (return_tuples : Bool) : List EntryV :=
  match doc with
  | none => []
  | some d => versions_loop return_tuples d.packages

/-- Modelled from the spec: `BaseChecker.get_components_without_suppliers`
is not under `src/`; it returns `[]` on a `None` document and otherwise
delegates to the `util.py` predicate. -/
def checker_get_components_without_suppliers (doc : Option Document)
    (return_tuples : Bool) : List EntryV :=
  match doc with
  | none => []
  | some d => suppliers_loop return_tuples d.packages

/-- Modelled from the spec: `BaseChecker.get_components_without_identifiers`
is not under `src/`; it returns `[]` on a `None` document and otherwise
delegates to the `util.py` predicate. -/
def checker_get_components_without_identifiers (doc : Option Document) :
    List (Option String) :=
  match doc with
  | none => []
  | some d => (d.packages.filter (fun p => pyFalsy p.spdx_id)).map Package.name

/-- Modelled from the spec: `BaseChecker.get_components_without_concluded_licenses`
is not under `src/`; per the spec a package is missing its concluded license
when the optional field is absent or empty, and the accessor returns `[]` on
a `None` document. -/
def checker_get_components_without_concluded_licenses (doc : Option Document) :
    List (Option String) :=
  match doc with
  | none => []
  | some d => (d.packages.filter (fun p => pyFalsy p.concluded_license)).map Package.name

/-- Modelled from the spec: `BaseChecker.get_components_without_copyright_texts`
is not under `src/`; per the spec a package is missing its copyright text when
the optional field is absent or empty, and the accessor returns `[]` on a
`None` document. -/
def checker_get_components_without_copyright_texts (doc : Option Document) :
    List (Option String) :=
  match doc with
  | none => []
  | some d => (d.packages.filter (fun p => pyFalsy p.copyright_text)).map Package.name

/-- The computed state of a checker instance: the (possibly absent) document,
the three document-level booleans, and the per-field missing-component lists
that `check_compliance` consults.  The tests drive `check_compliance` on
arbitrary such states, so compliance is stated over this record. -/
structure CheckerState where
  doc : Option Document
  doc_author : Bool
  doc_timestamp : Bool
  dependency_relationships : Bool
  components_without_names : List (Option String)
  components_without_versions : List EntryV
  components_without_identifiers : List (Option String)
  components_without_suppliers : List EntryV
  components_without_concluded_licenses : List (Option String)
  components_without_copyright_texts : List (Option String)
deriving DecidableEq

/-- Modelled from the spec: `NTIAChecker.check_compliance` of
`ntia_checker.py` is not under `src/`.  Per the spec the verdict is `True`
iff the document is present, the four NTIA per-field missing lists are empty
and the three document-level booleans are `True`; it is `False` whenever the
document is `None`. -/
def ntia_check_compliance (c : CheckerState) : Bool :=
  match c.doc with
  | none => false
  | some _ =>
      c.components_without_names.isEmpty &&
      c.components_without_versions.isEmpty &&
      c.components_without_identifiers.isEmpty &&
      c.components_without_suppliers.isEmpty &&
      c.doc_author && c.doc_timestamp && c.dependency_relationships

/-- Modelled from the spec: `FSCT3Checker.check_compliance` of
`fsct_checker.py` is not under `src/`.  Per the spec the verdict is `True`
iff the document is present, all six FSCT per-field missing lists are empty
and the three document-level booleans are `True`; it is `False` whenever the
document is `None`. -/
def fsct3_check_compliance (c : CheckerState) : Bool :=
  match c.doc with
  | none => false
  | some _ =>
      c.components_without_names.isEmpty &&
      c.components_without_versions.isEmpty &&
      c.components_without_identifiers.isEmpty &&
      c.components_without_suppliers.isEmpty &&
      c.components_without_concluded_licenses.isEmpty &&
      c.components_without_copyright_texts.isEmpty &&
      c.doc_author && c.doc_timestamp && c.dependency_relationships

/-- Modelled from the spec: the eager computation a checker performs at
construction (`base_checker.py`, not under `src/`): with a parsed document it
fills every per-field list from the field predicates and the document-level
booleans from the document; with a `None` document every accessor degrades to
its safe empty or `False` value. -/
def mk_checker_state (doc : Option Document) : CheckerState :=
  match doc with
  | none => ⟨none, false, false, false, [], [], [], [], [], []⟩
  | some d =>
      ⟨some d, d.has_author, d.has_timestamp, d.has_dependency_relationships,
       names_loop d.packages,
       versions_loop false d.packages,
       (d.packages.filter (fun p => pyFalsy p.spdx_id)).map Package.name,
       suppliers_loop false d.packages,
       (d.packages.filter (fun p => pyFalsy p.concluded_license)).map Package.name,
       (d.packages.filter (fun p => pyFalsy p.copyright_text)).map Package.name⟩

/-- Modelled from the spec: the ordered table-element list the NTIA checker
passes to the renderers (`ntia_checker.py`, not under `src/`); the tests pin
its length to 7. -/
def ntia_table_elements : List String :=
  ["name", "version", "identifier", "supplier", "author", "timestamp",
   "dependency relationships"]

/-- Modelled from the spec: the ordered table-element list the FSCT3 checker
passes to the renderers (`fsct_checker.py`, not under `src/`); the tests pin
its length to 9. -/
def fsct3_table_elements : List String :=
  ["name", "version", "identifier", "supplier", "author", "timestamp",
   "dependency relationships", "concluded license", "copyright text"]

/-- The checker variant the factory dispatches to. -/
inductive CheckerKind where
  | ntia
  | fsct3min
deriving DecidableEq

/-- A configuration error signalled by the factory: an unsupported
`sbom_spec` or an unknown `compliance` name. -/
inductive ConfigError where
  | unsupportedSbomSpec (s : String)
  | unknownCompliance (c : String)
deriving DecidableEq

/-- Modelled from the spec: the dispatch of the `SbomChecker` factory
(`sbom_checker.py`, not under `src/`).  It validates `sbom_spec` (recognized:
`spdx2`, `spdx3`) before dispatching on `compliance` (recognized: `ntia`,
`fsct3-min`), raising `ValueError` (here a `ConfigError`) otherwise and never
falling back to a default standard. -/
def sbom_checker_dispatch (compliance sbom_spec : String) :
    Except ConfigError CheckerKind :=
  if sbom_spec = "spdx2" ∨ sbom_spec = "spdx3" then
    if compliance = "ntia" then Except.ok CheckerKind.ntia
    else if compliance = "fsct3-min" then Except.ok CheckerKind.fsct3min
    else Except.error (ConfigError.unknownCompliance compliance)
  else Except.error (ConfigError.unsupportedSbomSpec sbom_spec)

/-- Projection of a verbose result entry to its non-verbose form: a
`(name, spdx_id)` pair projects to its name, a plain value is unchanged. -/
def entry_first : EntryV → EntryV
  | EntryV.pair n _ => EntryV.val n
  | EntryV.val v => EntryV.val v

example :
    get_components_without_names
        (some ⟨[⟨some "", some "1.0", Supplier.value "Acme", some "SPDXRef-1",
                 some "MIT", some "c"⟩], true, true, true⟩) =
      Except.ok [some "SPDXRef-1"] := by decide

example :
    get_components_without_suppliers
        (some ⟨[⟨some "n", some "v", Supplier.noAssertion, some "i", none, none⟩],
               true, true, true⟩) false =
      Except.ok [EntryV.val (some "n")] := by decide

example :
    ntia_check_compliance
      (mk_checker_state
        (some ⟨[⟨some "pkgA", some "1.0", Supplier.value "Acme", some "SPDXRef-1",
                 none, some "c"⟩], true, true, true⟩)) = true := by decide

example :
    fsct3_check_compliance
      (mk_checker_state
        (some ⟨[⟨some "pkgA", some "1.0", Supplier.value "Acme", some "SPDXRef-1",
                 none, some "c"⟩], true, true, true⟩)) = false := by decide

/-- Claim C2: for every document, the missing-suppliers list returned by
`get_components_without_suppliers` is exactly the names of the packages whose
supplier is absent (`None`) or the `SpdxNoAssertion` sentinel, in document
order; a package passes the `no_supplier` test iff its supplier is one of
those two, so any other supplier value (in particular any supplier string)
counts as present. -/
theorem missing_supplier_iff (d : Document) (p : Package) :
    get_components_without_suppliers (some d) false =
      Except.ok ((d.packages.filter no_supplier).map (fun q => EntryV.val q.name)) ∧
    (no_supplier p = true ↔
      p.supplier = Supplier.absent ∨ p.supplier = Supplier.noAssertion) ∧
    (p ∈ d.packages.filter no_supplier ↔ p ∈ d.packages ∧ no_supplier p = true) := by
  refine ⟨?_, ?_, ?_⟩
  · simp [get_components_without_suppliers, suppliers_loop_eq_filter_map]
  · cases h : p.supplier <;> simp [no_supplier, h]
  · simp [List.mem_filter]

/-- Claim C3 counterexample: on a `None` document every `util.py` field
predicate raises `AttributeError` at `doc.packages` (embedded as an error
result) instead of returning the empty list the claim asserts. -/
theorem util_predicates_none_counterexample :
    get_components_without_names (none : Option Document) =
        Except.error "AttributeError" ∧
    get_components_without_names none ≠ Except.ok [] ∧
    get_components_without_versions none false ≠ Except.ok [] ∧
    get_components_without_suppliers none false ≠ Except.ok [] ∧
    get_components_without_identifiers none ≠ Except.ok [] := by decide

/-- Claim C3 (amended): every `util.py` field predicate is total and
side-effect-free on actual documents, returning normally; on a `None`
document the `util.py` functions raise `AttributeError` (an error result)
rather than returning a list — the return-empty-list-on-`None` behaviour
belongs to the `BaseChecker` wrapper accessors of the same names, which
return `[]` when the document is `None`. -/
theorem util_predicates_totality (d : Document) :
    (get_components_without_names (some d)).isOk = true ∧
    (∀ b : Bool, (get_components_without_versions (some d) b).isOk = true) ∧
    (∀ b : Bool, (get_components_without_suppliers (some d) b).isOk = true) ∧
    (get_components_without_identifiers (some d)).isOk = true ∧
    (get_components_without_names none).isOk = false ∧
    (∀ b : Bool, (get_components_without_versions none b).isOk = false) ∧
    (∀ b : Bool, (get_components_without_suppliers none b).isOk = false) ∧
    (get_components_without_identifiers none).isOk = false ∧
    checker_get_components_without_names none = [] ∧
    (∀ b : Bool, checker_get_components_without_versions none b = []) ∧
    (∀ b : Bool, checker_get_components_without_suppliers none b = []) ∧
    checker_get_components_without_identifiers none = [] :=
  ⟨rfl, fun _ => rfl, fun _ => rfl, rfl, rfl, fun _ => rfl, fun _ => rfl, rfl,
   rfl, fun _ => rfl, fun _ => rfl, rfl⟩

/-- Claim C4 counterexample: `get_components_without_names` appends
`package.spdx_id`, not `package.name`.  On a document with one package whose
name is the empty string and whose SPDX ID is `SPDXRef-1`, the returned
element is `SPDXRef-1`, which is not the name of any package in the
document. -/
theorem names_predicate_counterexample :
    get_components_without_names
        (some ⟨[⟨some "", some "1.0", Supplier.value "Acme", some "SPDXRef-1",
                 some "MIT", some "c"⟩], true, true, true⟩) =
      Except.ok [some "SPDXRef-1"] ∧
    ¬ (∃ p ∈ ([⟨some "", some "1.0", Supplier.value "Acme", some "SPDXRef-1",
               some "MIT", some "c"⟩] : List Package),
        p.name = some "SPDXRef-1") := by decide

/-- Claim C4 (amended): `get_components_without_names` returns the SPDX
identifiers (not the names) of the packages lacking a name;
`get_components_without_versions` and `get_components_without_suppliers`
return names and, when their `return_tuples` flag is set, `(name, spdx_id)`
pairs; `get_components_without_identifiers` returns names and, like the
names predicate, takes no verbosity flag. -/
theorem predicates_shapes (d : Document) :
    get_components_without_names (some d) =
      Except.ok ((d.packages.filter (fun p => pyFalsy p.name)).map Package.spdx_id) ∧
    get_components_without_versions (some d) false =
      Except.ok ((d.packages.filter (fun p => pyFalsy p.version)).map
        (fun p => EntryV.val p.name)) ∧
    get_components_without_versions (some d) true =
      Except.ok ((d.packages.filter (fun p => pyFalsy p.version)).map
        (fun p => EntryV.pair p.name p.spdx_id)) ∧
    get_components_without_suppliers (some d) false =
      Except.ok ((d.packages.filter no_supplier).map (fun p => EntryV.val p.name)) ∧
    get_components_without_suppliers (some d) true =
      Except.ok ((d.packages.filter no_supplier).map
        (fun p => EntryV.pair p.name p.spdx_id)) ∧
    get_components_without_identifiers (some d) =
      Except.ok ((d.packages.filter (fun p => pyFalsy p.spdx_id)).map Package.name) := by
  refine ⟨?_, ?_, ?_, ?_, ?_, rfl⟩ <;>
    simp [get_components_without_names, get_components_without_versions,
          get_components_without_suppliers, names_loop_eq_filter_map,
          versions_loop_eq_filter_map, suppliers_loop_eq_filter_map]

/-- Claim C6: every field predicate — names, versions, suppliers and
identifiers, in either verbosity mode — traverses the packages in document
order and its result is the image of the subsequence of packages failing the
check, with no sorting and no deduplication: the selected packages form a
sublist of the package list, and a document listing the same failing package
twice yields its entry twice. -/
theorem predicates_preserve_order (d : Document) :
    get_components_without_names (some d) =
      Except.ok ((d.packages.filter (fun p => pyFalsy p.name)).map Package.spdx_id) ∧
    (∀ b : Bool, get_components_without_versions (some d) b =
      Except.ok ((d.packages.filter (fun p => pyFalsy p.version)).map
        (fun p => if b then EntryV.pair p.name p.spdx_id else EntryV.val p.name))) ∧
    (∀ b : Bool, get_components_without_suppliers (some d) b =
      Except.ok ((d.packages.filter no_supplier).map
        (fun p => if b then EntryV.pair p.name p.spdx_id else EntryV.val p.name))) ∧
    get_components_without_identifiers (some d) =
      Except.ok ((d.packages.filter (fun p => pyFalsy p.spdx_id)).map Package.name) ∧
    (d.packages.filter (fun p => pyFalsy p.name)).Sublist d.packages ∧
    (d.packages.filter (fun p => pyFalsy p.version)).Sublist d.packages ∧
    (d.packages.filter no_supplier).Sublist d.packages ∧
    (d.packages.filter (fun p => pyFalsy p.spdx_id)).Sublist d.packages ∧
    (∀ p : Package,
      get_components_without_names (some ⟨[p, p], true, true, true⟩) =
        Except.ok (if pyFalsy p.name then [p.spdx_id, p.spdx_id] else [])) ∧
    (∀ p : Package,
      get_components_without_versions (some ⟨[p, p], true, true, true⟩) false =
        Except.ok (if pyFalsy p.version then
          [EntryV.val p.name, EntryV.val p.name] else [])) ∧
    (∀ p : Package,
      get_components_without_suppliers (some ⟨[p, p], true, true, true⟩) false =
        Except.ok (if no_supplier p then
          [EntryV.val p.name, EntryV.val p.name] else [])) ∧
    (∀ p : Package,
      get_components_without_identifiers (some ⟨[p, p], true, true, true⟩) =
        Except.ok (if pyFalsy p.spdx_id then [p.name, p.name] else [])) := by
  refine ⟨?_, fun b => ?_, fun b => ?_, rfl, List.filter_sublist _,
          List.filter_sublist _, List.filter_sublist _, List.filter_sublist _,
          ?_, ?_, ?_, ?_⟩
  · simp [get_components_without_names, names_loop_eq_filter_map]
  · simp [get_components_without_versions, versions_loop_eq_filter_map]
  · simp [get_components_without_suppliers, suppliers_loop_eq_filter_map]
  · intro p
    by_cases h : pyFalsy p.name <;>
      simp [get_components_without_names, names_loop, h]
  · intro p
    by_cases h : pyFalsy p.version <;>
      simp [get_components_without_versions, versions_loop, h]
  · intro p
    by_cases h : no_supplier p <;>
      simp [get_components_without_suppliers, suppliers_loop, h]
  · intro p
    by_cases h : pyFalsy p.spdx_id <;>
      simp [get_components_without_identifiers, List.filter_cons, h]

/-- Claim C9: the supplier check is by identity with `None` and by sentinel
type, not by falsiness — a package whose supplier is any non-sentinel value,
even the empty string, is excluded from the missing-suppliers list — whereas
the version check is by falsiness, so a package whose version is the empty
string is included in the missing-versions list. -/
theorem supplier_identity_vs_version_falsiness (d : Document) (p : Package)
    (s : String) :
    no_supplier ⟨p.name, p.version, Supplier.value s, p.spdx_id,
      p.concluded_license, p.copyright_text⟩ = false ∧
    (pyFalsy (some "") = true ∧ pyFalsy none = true) ∧
    get_components_without_suppliers (some d) false =
      Except.ok ((d.packages.filter no_supplier).map (fun q => EntryV.val q.name)) ∧
    get_components_without_versions (some d) false =
      Except.ok ((d.packages.filter (fun q => pyFalsy q.version)).map
        (fun q => EntryV.val q.name)) ∧
    get_components_without_suppliers
        (some ⟨[⟨some "n", some "", Supplier.value "", some "i", none, none⟩],
               true, true, true⟩) false = Except.ok [] ∧
    get_components_without_versions
        (some ⟨[⟨some "n", some "", Supplier.value "", some "i", none, none⟩],
               true, true, true⟩) false = Except.ok [EntryV.val (some "n")] := by
  refine ⟨rfl, ⟨rfl, rfl⟩, ?_, ?_, by decide, by decide⟩
  · simp [get_components_without_suppliers, suppliers_loop_eq_filter_map]
  · simp [get_components_without_versions, versions_loop_eq_filter_map]

/-- Claim C1: for both standards and every checker state with a document
present, `check_compliance` returns `True` iff every per-field missing list
configured for that standard is empty and the three document-level booleans
are `True`; and whenever the document is `None`, both return `False`. -/
theorem check_compliance_verdicts (c : CheckerState) :
    (c.doc ≠ none →
      ((ntia_check_compliance c = true ↔
         (c.components_without_names = [] ∧ c.components_without_versions = [] ∧
          c.components_without_identifiers = [] ∧
          c.components_without_suppliers = [] ∧
          c.doc_author = true ∧ c.doc_timestamp = true ∧
          c.dependency_relationships = true)) ∧
       (fsct3_check_compliance c = true ↔
         (c.components_without_names = [] ∧ c.components_without_versions = [] ∧
          c.components_without_identifiers = [] ∧
          c.components_without_suppliers = [] ∧
          c.components_without_concluded_licenses = [] ∧
          c.components_without_copyright_texts = [] ∧
          c.doc_author = true ∧ c.doc_timestamp = true ∧
          c.dependency_relationships = true)))) ∧
    (c.doc = none →
      ntia_check_compliance c = false ∧ fsct3_check_compliance c = false) := by
  obtain ⟨doc, a, t, r, l1, l2, l3, l4, l5, l6⟩ := c
  cases doc <;>
    simp [ntia_check_compliance, fsct3_check_compliance, List.isEmpty_iff,
          and_assoc]

theorem check_compliance_verdicts_witness :
    ntia_check_compliance
        ⟨some ⟨[], true, true, true⟩, true, true, true, [], [], [], [], [], []⟩ =
      true ∧
    fsct3_check_compliance ⟨none, true, true, true, [], [], [], [], [], []⟩ =
      false :=
  ⟨(((check_compliance_verdicts
        ⟨some ⟨[], true, true, true⟩, true, true, true,
         [], [], [], [], [], []⟩).left (by decide)).left).mpr
      ⟨rfl, rfl, rfl, rfl, rfl, rfl, rfl⟩,
   ((check_compliance_verdicts
        ⟨none, true, true, true, [], [], [], [], [], []⟩).right rfl).right⟩

/-- Claim C5: FSCT3 compliance is strictly stricter than NTIA compliance:
for every document on which the FSCT3 checker's verdict is `True`, the NTIA
checker's verdict (covering exactly the NTIA-overlapping requirements) is
also `True`; and there is a document that is NTIA-compliant yet not
FSCT3-compliant. -/
theorem fsct3_stricter_than_ntia :
    (∀ d : Document, fsct3_check_compliance (mk_checker_state (some d)) = true →
        ntia_check_compliance (mk_checker_state (some d)) = true) ∧
    (∃ d : Document, ntia_check_compliance (mk_checker_state (some d)) = true ∧
        fsct3_check_compliance (mk_checker_state (some d)) = false) := by
  constructor
  · intro d h
    simp [mk_checker_state, ntia_check_compliance, fsct3_check_compliance] at h ⊢
    tauto
  · exact ⟨⟨[⟨some "pkgA", some "1.0", Supplier.value "Acme", some "SPDXRef-1",
              none, some "c"⟩], true, true, true⟩, by decide, by decide⟩

theorem fsct3_stricter_than_ntia_witness :
    ntia_check_compliance
        (mk_checker_state
          (some ⟨[⟨some "pkgA", some "1.0", Supplier.value "Acme",
                   some "SPDXRef-1", some "MIT", some "c"⟩],
                 true, true, true⟩)) = true :=
  fsct3_stricter_than_ntia.left
    ⟨[⟨some "pkgA", some "1.0", Supplier.value "Acme", some "SPDXRef-1",
       some "MIT", some "c"⟩], true, true, true⟩ (by decide)

/-- Claim C7: the `SbomChecker` factory signals a configuration error for
every unrecognized `sbom_spec` (recognized: `spdx2`, `spdx3`), checked before
compliance dispatch; for a recognized `sbom_spec` it signals a distinct
configuration error for every compliance name other than `ntia` and
`fsct3-min`; and it never silently falls back to a default: a successful
dispatch names exactly the requested standard. -/
theorem sbom_checker_dispatch_errors (compliance sbom_spec : String) :
    (sbom_spec ≠ "spdx2" → sbom_spec ≠ "spdx3" →
      sbom_checker_dispatch compliance sbom_spec =
        Except.error (ConfigError.unsupportedSbomSpec sbom_spec)) ∧
    ((sbom_spec = "spdx2" ∨ sbom_spec = "spdx3") →
      compliance ≠ "ntia" → compliance ≠ "fsct3-min" →
      sbom_checker_dispatch compliance sbom_spec =
        Except.error (ConfigError.unknownCompliance compliance)) ∧
    (∀ k : CheckerKind,
      sbom_checker_dispatch compliance sbom_spec = Except.ok k →
      (compliance = "ntia" ∧ k = CheckerKind.ntia) ∨
      (compliance = "fsct3-min" ∧ k = CheckerKind.fsct3min)) := by
  refine ⟨?_, ?_, ?_⟩
  · intro h1 h2
    simp [sbom_checker_dispatch, h1, h2]
  · intro hs h1 h2
    rcases hs with hs | hs <;> simp [sbom_checker_dispatch, hs, h1, h2]
  · intro k hk
    unfold sbom_checker_dispatch at hk
    split_ifs at hk with hs h1 h2
    · injection hk with h
      exact Or.inl ⟨h1, h.symm⟩
    · injection hk with h
      exact Or.inr ⟨h2, h.symm⟩

theorem sbom_checker_dispatch_errors_witness :
    sbom_checker_dispatch "ntia" "bad-spec" =
        Except.error (ConfigError.unsupportedSbomSpec "bad-spec") ∧
    sbom_checker_dispatch "unknown" "spdx2" =
        Except.error (ConfigError.unknownCompliance "unknown") :=
  ⟨(sbom_checker_dispatch_errors "ntia" "bad-spec").left (by decide) (by decide),
   (sbom_checker_dispatch_errors "unknown" "spdx2").right.left
     (Or.inl rfl) (by decide) (by decide)⟩

/-- Claim C8: the ordered table-element lists are fixed: the NTIA checker
supplies exactly 7 entries in the order name, version, identifier, supplier,
author, timestamp, dependency relationships; the FSCT3 checker supplies
exactly 9, the same 7 followed by concluded license and copyright text. -/
theorem table_elements_contract :
    ntia_table_elements =
      ["name", "version", "identifier", "supplier", "author", "timestamp",
       "dependency relationships"] ∧
    ntia_table_elements.length = 7 ∧
    fsct3_table_elements =
      ntia_table_elements ++ ["concluded license", "copyright text"] ∧
    fsct3_table_elements.length = 9 :=
  ⟨rfl, rfl, rfl, rfl⟩

/-- Claim C10: the `return_tuples` flag changes only the shape of each
entry, not the selection or the order: projecting each `(name, spdx_id)`
pair of the verbose result to its name yields exactly the non-verbose
result, for both the versions and the suppliers predicate. -/
theorem return_tuples_projection (d : Document) :
    Except.map (List.map entry_first) (get_components_without_versions (some d) true) =
      get_components_without_versions (some d) false ∧
    Except.map (List.map entry_first) (get_components_without_suppliers (some d) true) =
      get_components_without_suppliers (some d) false := by
  constructor <;>
    simp [get_components_without_versions, get_components_without_suppliers,
          Except.map, versions_loop_eq_filter_map, suppliers_loop_eq_filter_map,
          List.map_map, Function.comp, entry_first]
